import Mathlib

/-!
Verification development for the commit-message generation engine.

The engine inspects a set of changed files (paths with insertion/deletion
counts) in a git working tree and produces ranked commit-message
suggestions.  We embed the engine shallowly: the git backend is an explicit
`RepoEnv` value (status lists, staged and working diff summaries, and
flags recording whether the filesystem / repository queries succeed), and
every engine function becomes a pure Lean function of that environment.
JavaScript string operations are re-implemented over character lists so
that all definitions evaluate inside the kernel.
-/

namespace CommitGen

/-! ### JavaScript-style string helpers -/

/-- Whether `sub` occurs as a contiguous run inside the second list. -/
def listInfix (sub : List Char) : List Char → Bool
  | [] => sub.isEmpty
  | c :: rest => sub.isPrefixOf (c :: rest) || listInfix sub rest

/-- JS `haystack.includes(needle)`: substring containment. -/
def strContains (s sub : String) : Bool :=
  listInfix sub.toList s.toList

/-- JS `s.endsWith(post)`. -/
def strEndsWith (s post : String) : Bool :=
  post.toList.isSuffixOf s.toList

/-- JS `s.startsWith(pre)`. -/
def strStartsWith (s p : String) : Bool :=
  p.toList.isPrefixOf s.toList

/-- JS `s.toLowerCase()` (ASCII case mapping suffices for the engine's data). -/
def strToLower (s : String) : String :=
  String.mk (s.toList.map Char.toLower)

/-- JS `s.toUpperCase()`. -/
def strToUpper (s : String) : String :=
  String.mk (s.toList.map Char.toUpper)

/-- JS `s.trim()`: strip leading and trailing whitespace. -/
def strTrim (s : String) : String :=
  String.mk (((s.toList.dropWhile Char.isWhitespace).reverse.dropWhile Char.isWhitespace).reverse)

/-- Split a character list at every occurrence of `sep`, JS `split` semantics. -/
def splitCharAux (sep : Char) : List Char → List (List Char)
  | [] => [[]]
  | c :: rest =>
    match splitCharAux sep rest with
    | [] => [[]]
    | h :: t => if c = sep then [] :: h :: t else (c :: h) :: t

/-- JS `s.split(sep)` for a one-character separator. -/
def jsSplit (sep : Char) (s : String) : List String :=
  (splitCharAux sep s.toList).map String.mk

/-- Join path segments with `/`, JS `parts.join("/")`. -/
def strJoinSlash : List String → String
  | [] => ""
  | [p] => p
  | p :: rest => p ++ "/" ++ strJoinSlash rest

/-- JS `a || b` for an optional string: `b` when `a` is absent or empty. -/
def jsOr (a : Option String) (b : String) : String :=
  match a with
  | some s => if s = "" then b else s
  | none => b

/-- JS `s.charAt(0).toUpperCase() + s.slice(1)`. -/
def jsCapitalize (s : String) : String :=
  match s.toList with
  | [] => ""
  | c :: cs => String.mk (c.toUpper :: cs)

/-- Insert into a JS `Set` modelled as an order-preserving duplicate-free list. -/
def insertUniq (l : List String) (x : String) : List String :=
  if x ∈ l then l else l ++ [x]

/-- `Array.from(new Set(l))`: deduplicate preserving first occurrence. -/
def jsDedup (l : List String) : List String :=
  l.foldl insertUniq []

/-- A word character in the sense of the JS regex `\b` boundary: `[A-Za-z0-9_]`. -/
def isWordChar (c : Char) : Bool :=
  c.isAlphanum || c = '_'

/-- Whether the character before a candidate match position is a word boundary. -/
def boundaryBefore : Option Char → Bool
  | none => true
  | some c => !isWordChar c

/-- Whether the character after a candidate match is a word boundary. -/
def boundaryAfter : List Char → Bool
  | [] => true
  | c :: _ => !isWordChar c

/-- Scan for word-boundary occurrences of `target`, replacing each with `repl`.
`prev` is the character of the original string just before the scan position. -/
def replaceWBAux (target repl : List Char) (prev : Option Char) : List Char → List Char
  | [] => []
  | c :: rest =>
    if h : target ≠ [] ∧ target.isPrefixOf (c :: rest) = true ∧
        boundaryBefore prev = true ∧ boundaryAfter ((c :: rest).drop target.length) = true then
      repl ++ replaceWBAux target repl target.getLast? ((c :: rest).drop target.length)
    else
      c :: replaceWBAux target repl (some c) rest
termination_by l => l.length
decreasing_by
  · have h1 : 0 < target.length := List.length_pos.mpr h.1
    simp only [List.length_drop, List.length_cons]
    omega
  · simp

/-- JS `s.replace(/\btarget\b/g, repl)` for a plain-word target: replace every
word-boundary, case-sensitive occurrence. -/
def jsReplaceWordAll (s target repl : String) : String :=
  String.mk (replaceWBAux target.toList repl.toList none s.toList)

/-! ### Data model -/

/-- One entry of a `simple-git` diff summary: a path, and insertion/deletion
counts when present (binary files carry no counts). -/
structure SummaryFile where
  file : String
  counts : Option (Nat × Nat)
deriving Repr, DecidableEq

/-- Insertions of a summary entry with counts. -/
def SummaryFile.insertions (f : SummaryFile) : Nat :=
  (f.counts.getD (0, 0)).1

/-- Deletions of a summary entry with counts. -/
def SummaryFile.deletions (f : SummaryFile) : Nat :=
  (f.counts.getD (0, 0)).2

/-- The `git status` fields the engine consults. -/
structure GitStatus where
  staged : List String
  modified : List String
  not_added : List String
  deleted : List String
deriving Repr, DecidableEq

/-- The repository environment: everything the engine observes through the
git/filesystem boundary.  `stagedFiles` is `diffSummary(["--cached"]).files`,
`workingFiles` is `diffSummary().files`; the Bool flags record whether the
corresponding external query succeeds. -/
structure RepoEnv where
  dirExists : Bool
  isRepo : Bool
  statusOk : Bool
  diffOk : Bool
  status : GitStatus
  stagedFiles : List SummaryFile
  workingFiles : List SummaryFile
  diffOf : String → String
  statusErrMsg : String
  diffErrMsg : String

/-- The two recoverable error classes of the engine. -/
inductive EngineError where
  | validation (message : String)
  | gitOperation (message : String)
deriving Repr, DecidableEq

/-- The fixed exclusion markers: matching paths are dropped from aggregation. -/
def excludeFiles : List String := ["dist", "bun.lock", ".DS_Store", "node_modules"]

/-- Whether a path contains any exclusion marker. -/
def isExcluded (path : String) : Bool :=
  excludeFiles.any (fun e => strContains path e)

/-- One commit-message suggestion.  `exampleText` models the source's
`example` field (renamed: `example` is a Lean keyword). -/
structure CommitMessageSuggestion where
  message : String
  type : String
  scope : Option String
  rationale : String
  style : String
  exampleText : Option String
  priority : String
  length : Nat
deriving Repr, DecidableEq

/-- The `summary` block of a response. -/
structure ResponseSummary where
  totalSuggestions : Nat
  filesChanged : Nat
  changeTypes : List String
  recommendedStyle : String
  primarySuggestion : String
deriving Repr, DecidableEq

/-- The `usage` block of a response. -/
structure UsageInfo where
  howToUse : String
  examples : List String
deriving Repr, DecidableEq

/-- The engine's sole output artifact. -/
structure CommitMessageResponse where
  suggestions : List CommitMessageSuggestion
  summary : ResponseSummary
  usage : UsageInfo
deriving Repr, DecidableEq

/-- The aggregate classification produced by `analyzeChanges`. -/
structure ChangeAnalysis where
  type : String
  scope : String
  description : String
  fileTypes : List String
  changeTypes : List String
deriving Repr, DecidableEq

/-- One entry of the secondary accessor's output. -/
structure FileDiff where
  file : String
  diff : String
deriving Repr, DecidableEq

/-! ### Change aggregation (`analyzeChanges`) -/

/-- JS `fileName.split(".").pop()?.toLowerCase() ?? ""`: the extension token. -/
def jsExtOf (fileName : String) : String :=
  strToLower (((jsSplit '.' fileName).getLast?).getD "")

/-- Mutable analysis state threaded through the per-file loop of `analyzeChanges`. -/
structure AnalysisState where
  fileTypes : List String
  changeTypes : List String
  hasNewFiles : Bool
  hasDeletedFiles : Bool
  hasModifiedFiles : Bool
deriving Repr, DecidableEq

/-- Initial analysis state: empty sets, all flags false. -/
def initAnalysisState : AnalysisState := ⟨[], [], false, false, false⟩

/-- One iteration of the `analyzeChanges` file loop: record the extension and
tag the file's change nature (addition / deletion / modification). -/
def analysisStep (s : AnalysisState) (f : SummaryFile) : AnalysisState :=
  if f.file = "" then s
  else
    let extension := jsExtOf f.file
    let s1 := if extension ≠ "" ∧ extension.length ≤ 10 then
        { s with fileTypes := insertUniq s.fileTypes extension } else s
    match f.counts with
    | some (ins, del) =>
      if 0 < ins ∧ del = 0 then
        { s1 with hasNewFiles := true, changeTypes := insertUniq s1.changeTypes "addition" }
      else if 0 < del ∧ ins = 0 then
        { s1 with hasDeletedFiles := true, changeTypes := insertUniq s1.changeTypes "deletion" }
      else
        { s1 with hasModifiedFiles := true, changeTypes := insertUniq s1.changeTypes "modification" }
    | none =>
      { s1 with hasModifiedFiles := true, changeTypes := insertUniq s1.changeTypes "modification" }

/-- The `fileTypes.size == 0` adjustment: default to `["unknown"]`. -/
def adjustFileTypes (st : AnalysisState) : AnalysisState :=
  if st.fileTypes.length = 0 then { st with fileTypes := ["unknown"] } else st

/-- The `changeTypes.size == 0` adjustment: default to `["modification"]`
and force the modified flag on. -/
def adjustChangeTypes (st : AnalysisState) : AnalysisState :=
  if st.changeTypes.length = 0 then
    { st with changeTypes := ["modification"], hasModifiedFiles := true }
  else st

/-- The analysis state after the loop and the two emptiness adjustments. -/
def adjustedState (files : List SummaryFile) : AnalysisState :=
  adjustChangeTypes (adjustFileTypes (files.foldl analysisStep initAnalysisState))

/-- The files the type-determination rules actually look at (truthy paths). -/
def validFilesOf (files : List SummaryFile) : List SummaryFile :=
  files.filter (fun f => f.file != "")

/-- The test-file naming convention checked by the source-extension rule. -/
def isTestFileB (f : SummaryFile) : Bool :=
  strContains f.file "test" || strContains f.file "spec" || strContains f.file "__tests__" ||
  strEndsWith f.file ".test.ts" || strEndsWith f.file ".test.js" ||
  strEndsWith f.file ".spec.ts" || strEndsWith f.file ".spec.js"

/-- The ordered type/scope/description rule chain of `analyzeChanges`
(first match wins; returns `(type, scope, description)`). -/
def determineTypeScopeDesc (st : AnalysisState) (validFiles : List SummaryFile) :
    String × String × String :=
  if "md" ∈ st.fileTypes ∧ 0 < validFiles.length ∧
      validFiles.all (fun f => strContains (strToLower f.file) "readme" || strEndsWith f.file ".md") = true then
    ("docs", "", "update documentation")
  else if "json" ∈ st.fileTypes ∧ validFiles.any (fun f => f.file == "package.json") = true then
    ("chore", "deps", "update dependencies")
  else if validFiles.any (fun f => strContains f.file "package-lock.json" ||
      strContains f.file "yarn.lock" || strContains f.file "bun.lock") = true then
    ("chore", "deps", "update lockfile")
  else if "ts" ∈ st.fileTypes ∨ "js" ∈ st.fileTypes ∨ "jsx" ∈ st.fileTypes ∨ "tsx" ∈ st.fileTypes then
    if 0 < validFiles.length ∧ validFiles.all isTestFileB = true then
      ("test", "", "update tests")
    else if st.hasNewFiles = true ∧ st.hasDeletedFiles = false then
      ("feat", "", "add new functionality")
    else if st.hasDeletedFiles = true ∧ st.hasNewFiles = false then
      ("refactor", "", "remove code")
    else if st.hasDeletedFiles = true ∧ st.hasNewFiles = true then
      ("refactor", "", "restructure code")
    else if st.hasModifiedFiles = true then
      ("refactor", "", "update implementation")
    else
      ("fix", "", "fix issue")
  else if "css" ∈ st.fileTypes ∨ "scss" ∈ st.fileTypes ∨ "sass" ∈ st.fileTypes ∨ "less" ∈ st.fileTypes then
    ("style", "", "update styles")
  else if "yml" ∈ st.fileTypes ∨ "yaml" ∈ st.fileTypes ∨ "toml" ∈ st.fileTypes ∨ "ini" ∈ st.fileTypes then
    ("chore", "config", "update configuration")
  else
    ("feat", "", "update code")

/-- Longest common `/`-segment prefix of the match positions of `splitPaths`,
walking the first path's segments from index `i`. -/
def commonPrefixFrom (splitPaths : List (List String)) : Nat → List String → List String
  | _, [] => []
  | i, part :: rest =>
    if part ≠ "" ∧ splitPaths.all (fun p => p[i]? == some part) then
      part :: commonPrefixFrom splitPaths (i + 1) rest
    else []

/-- `findCommonPath`: longest common directory prefix of the given paths. -/
def findCommonPath (filePaths : List String) : String :=
  if filePaths.length = 0 then ""
  else
    let validPaths := filePaths.filter (fun p => (p != "") && !(strStartsWith p ".."))
    if validPaths.length = 0 then ""
    else if validPaths.length = 1 then
      let pathParts := jsSplit '/' (validPaths.headD "")
      if 1 < pathParts.length then strJoinSlash pathParts.dropLast else ""
    else
      let splitPaths := validPaths.map (fun p => (jsSplit '/' p).filter (fun seg => seg != ""))
      let firstPath := splitPaths.headD []
      if firstPath.length = 0 then ""
      else strJoinSlash (commonPrefixFrom splitPaths 0 firstPath)

/-- Directory-based scope resolution: when no rule set a scope, take the first
segment of the common path, skipping a leading generic `src` segment. -/
def resolveScope (scope0 : String) (validFiles : List SummaryFile) : String :=
  if scope0 = "" ∧ 0 < validFiles.length then
    let filePaths := (validFiles.map (fun f => f.file)).filter (fun p => p != "")
    let commonPath := findCommonPath filePaths
    if commonPath ≠ "" ∧ commonPath ≠ "." ∧ 0 < commonPath.length then
      let scopeParts := (jsSplit '/' commonPath).filter (fun seg => seg != "")
      let sc := scopeParts.headD ""
      if sc = "src" ∧ 1 < scopeParts.length then (scopeParts[1]?).getD "" else sc
    else scope0
  else scope0

/-- `analyzeChanges`: aggregate a change-file list into a single classification.
An empty list raises a `ValidationError` in the source, which its own catch
turns into the safe default aggregate. -/
def analyzeChanges (files : List SummaryFile) : ChangeAnalysis :=
  if files.length = 0 then ⟨"feat", "", "update code", ["unknown"], ["modification"]⟩
  else
    let st := adjustedState files
    let tsd := determineTypeScopeDesc st (validFilesOf files)
    ⟨tsd.1, resolveScope tsd.2.1 (validFilesOf files), tsd.2.2, st.fileTypes, st.changeTypes⟩

/-! ### Message synthesis (`generateSuggestion`) -/

/-- The safe fallback suggestion returned by `generateSuggestion`'s catch
(in our model reachable only through the empty-style validation check). -/
def fallbackSuggestion (style : String) (variant : Nat) : CommitMessageSuggestion :=
  { message := "Update code", type := "feat", scope := none,
    rationale := "Fallback suggestion due to error: Invalid style provided",
    style := style, exampleText := some "git commit -m \"Update code\"",
    priority := if variant = 0 then "primary" else "alternative",
    length := ("Update code" : String).length }

/-- The per-style, per-variant rendering of `(message, rationale, example)`. -/
def renderParts (safeType safeScope safeDescription style : String) (includeScope : Bool)
    (variant : Nat) : String × String × String :=
  if style = "conventional" then
    let scopeStr := if includeScope = true ∧ safeScope ≠ "" then "(" ++ safeScope ++ ")" else ""
    if variant = 0 then
      let m := safeType ++ scopeStr ++ ": " ++ safeDescription
      (m, "Standard conventional commit following the type" ++ scopeStr ++ ": description format",
        "git commit -m \"" ++ m ++ "\"")
    else if variant = 1 then
      let m := safeType ++ scopeStr ++ ": " ++ jsReplaceWordAll safeDescription "update" "improve"
      (m, "Alternative wording emphasizing improvement over simple updates",
        "git commit -m \"" ++ m ++ "\"")
    else if variant = 2 then
      let m := safeType ++ scopeStr ++ ": " ++ jsReplaceWordAll safeDescription "update" "modify"
      (m, "Variation using \x27modify\x27 to indicate careful, deliberate changes",
        "git commit -m \"" ++ m ++ "\"")
    else
      let m := safeType ++ scopeStr ++ ": " ++ safeDescription
      (m, "Standard conventional commit (variant " ++ toString variant ++ ")",
        "git commit -m \"" ++ m ++ "\"")
  else if style = "semantic" then
    if variant = 0 then
      let m := strToUpper safeType ++ ": " ++ safeDescription
      (m, "Uppercase semantic format for clear type identification",
        "git commit -m \"" ++ m ++ "\"")
    else if variant = 1 then
      let m := "[" ++ safeType ++ "] " ++ safeDescription
      (m, "Bracketed format popular in many open source projects",
        "git commit -m \"" ++ m ++ "\"")
    else
      let m := safeType ++ ": " ++ safeDescription
      (m, "Simple semantic format (variant " ++ toString variant ++ ")",
        "git commit -m \"" ++ m ++ "\"")
  else if style = "descriptive" then
    if variant = 0 then
      let m := if safeDescription = "" then "Update code" else jsCapitalize safeDescription
      (m, "Natural language description focusing on what was actually changed",
        "git commit -m \"" ++ m ++ "\"")
    else if variant = 1 then
      let d0 := jsReplaceWordAll safeDescription "update" "refactor"
      let d := if d0 = "" then safeDescription else d0
      let m := if d = "" then "Refactor code" else jsCapitalize d
      (m, "Action-focused message emphasizing the nature of the changes",
        "git commit -m \"" ++ m ++ "\"")
    else
      let m := jsCapitalize safeDescription
      (m, "Descriptive format (variant " ++ toString variant ++ ")",
        "git commit -m \"" ++ m ++ "\"")
  else
    let m := safeType ++ ": " ++ safeDescription
    (m, "Default format with basic type and description",
      "git commit -m \"" ++ m ++ "\"")

/-- `generateSuggestion`: render one suggestion for a given analysis, style,
scope flag and variant index.  The source's internal catch makes it total. -/
def generateSuggestion (analysis : ChangeAnalysis) (style : String) (includeScope : Bool)
    (variant : Nat) : CommitMessageSuggestion :=
  if style = "" then fallbackSuggestion style variant
  else
    let safeType := strTrim (strToLower analysis.type)
    let safeScope := strTrim (strToLower analysis.scope)
    let safeDescription := strTrim analysis.description
    let parts := renderParts safeType safeScope safeDescription style includeScope variant
    { message := parts.1, type := safeType,
      scope := if includeScope = true ∧ safeScope ≠ "" then some safeScope else none,
      rationale := parts.2.1, style := style, exampleText := some parts.2.2,
      priority := if variant = 0 then "primary" else "alternative",
      length := parts.1.length }

/-! ### Terminal responses and the engine entry points -/

/-- Terminal response when the repository has no changes at all. -/
def noChangesResponse (style : String) : CommitMessageResponse :=
  { suggestions :=
      [{ message := "No changes detected", type := "none", scope := none,
         rationale := "No file changes found in the repository. Working directory is clean.",
         style := style, exampleText := none, priority := "primary", length := 19 }],
    summary :=
      { totalSuggestions := 1, filesChanged := 0, changeTypes := [],
        recommendedStyle := style, primarySuggestion := "No changes detected" },
    usage :=
      { howToUse := "Make some changes to your files and stage them with \x27git add .\x27 before generating commit messages",
        examples := ["# Make some changes first", "git add .", "# Then generate commit messages"] } }

/-- Terminal response when files changed but none are staged.  The `length`
field carries the source's hard-coded constant 27. -/
def noStagedResponse (style : String) (status : GitStatus) : CommitMessageResponse :=
  { suggestions :=
      [{ message := "No staged changes detected", type := "none", scope := none,
         rationale := "Files have been modified but not staged for commit. Use \x27git add\x27 to stage changes first.",
         style := style, exampleText := none, priority := "primary", length := 27 }],
    summary :=
      { totalSuggestions := 1,
        filesChanged := status.modified.length + status.not_added.length + status.deleted.length,
        changeTypes := ["unstaged"], recommendedStyle := style,
        primarySuggestion := "No staged changes detected" },
    usage :=
      { howToUse := "Stage your changes first, then generate commit messages",
        examples := ["git add .", "# Then generate commit messages",
          "git add " ++ jsOr status.not_added.head? (jsOr status.modified.head? "specific-file.txt")] } }

/-- Terminal response when every changed file matches an exclusion marker.
The `length` field carries the source's hard-coded constant 26. -/
def onlyExcludedResponse (style : String) (totalFiles : Nat) : CommitMessageResponse :=
  { suggestions :=
      [{ message := "Only excluded files changed", type := "chore", scope := none,
         rationale := "All changes are in excluded files (build artifacts, dependencies, etc.)",
         style := style, exampleText := none, priority := "primary", length := 26 }],
    summary :=
      { totalSuggestions := 1, filesChanged := totalFiles, changeTypes := ["excluded"],
        recommendedStyle := style, primarySuggestion := "Only excluded files changed" },
    usage :=
      { howToUse := "Consider if these changes should be committed or excluded",
        examples := ["# If you want to commit these changes:",
          "git commit -m \"Only excluded files changed\"", "# Or add them to .gitignore"] } }

/-- Terminal response produced by the entry point's `ValidationError` catch. -/
def validationErrorResponse (style msg : String) : CommitMessageResponse :=
  { suggestions :=
      [{ message := "Validation Error", type := "error", scope := none,
         rationale := msg, style := style, exampleText := none,
         priority := "primary", length := 16 }],
    summary :=
      { totalSuggestions := 1, filesChanged := 0, changeTypes := ["error"],
        recommendedStyle := style, primarySuggestion := "Validation Error" },
    usage :=
      { howToUse := "Fix the validation error and try again",
        examples := ["# Fix the issue mentioned above and retry"] } }

/-- Terminal response produced by the entry point's `GitOperationError` catch. -/
def gitOperationFailedResponse (style msg : String) : CommitMessageResponse :=
  { suggestions :=
      [{ message := "Git Operation Failed", type := "error", scope := none,
         rationale := msg, style := style, exampleText := none,
         priority := "primary", length := 20 }],
    summary :=
      { totalSuggestions := 1, filesChanged := 0, changeTypes := ["error"],
        recommendedStyle := style, primarySuggestion := "Git Operation Failed" },
    usage :=
      { howToUse := "Check Git repository status and try again",
        examples := ["git status", "git log --oneline -5", "# Fix any Git issues and retry"] } }

/-- The change-nature tag the response summary computes per changed file. -/
def natureOf (f : SummaryFile) : String :=
  match f.counts with
  | some (ins, del) =>
    if 0 < ins ∧ del = 0 then "additions"
    else if 0 < del ∧ ins = 0 then "deletions"
    else "modifications"
  | none => "modifications"

/-- The assembled non-terminal response: `maxSuggestions` rendered variants
plus summary and usage blocks. -/
def mainResponse (style : String) (maxSuggestions : Nat) (includeScope : Bool)
    (changedFiles : List SummaryFile) : CommitMessageResponse :=
  let analysis := analyzeChanges changedFiles
  let suggestions := (List.range maxSuggestions).map
    (fun i => generateSuggestion analysis style includeScope i)
  let primarySuggestion := jsOr (suggestions.head?.map (fun s => s.message)) "Update code"
  { suggestions := suggestions,
    summary :=
      { totalSuggestions := suggestions.length, filesChanged := changedFiles.length,
        changeTypes := jsDedup (changedFiles.map natureOf), recommendedStyle := style,
        primarySuggestion := primarySuggestion },
    usage :=
      { howToUse := "Copy one of the suggested commit messages and use: git commit -m \"" ++ primarySuggestion ++ "\"",
        examples := ["git commit -m \"" ++ primarySuggestion ++ "\"",
            "git add . && git commit -m \"" ++ primarySuggestion ++ "\""] ++
          (match suggestions.drop 1 with
           | s :: _ => ["git commit -m \"" ++ s.message ++ "\""]
           | [] => []) } }

/-- The post-exclusion change set the engine aggregates (`changedFiles`). -/
def changedFilesOf (env : RepoEnv) : List SummaryFile :=
  env.stagedFiles.filter (fun f => !(isExcluded f.file))

/-- The body of `generateCommitMessage` before its catch: validation,
repository checks, the three terminal short-circuits, and assembly. -/
def generateCommitMessageCore (env : RepoEnv) (rootDir style : String) (maxSuggestions : Nat)
    (includeScope : Bool) : Except EngineError CommitMessageResponse :=
  if rootDir = "" then
    .error (.validation "Root directory must be a non-empty string")
  else if maxSuggestions < 1 ∨ 5 < maxSuggestions then
    .error (.validation "Maximum suggestions must be between 1 and 5")
  else if env.dirExists = false then
    .error (.validation ("Directory does not exist: " ++ rootDir))
  else if env.isRepo = false then
    .error (.validation ("Directory is not a Git repository: " ++ rootDir ++ ". Initialize with \x27git init\x27 first."))
  else if env.statusOk = false then
    .error (.gitOperation ("Failed to get Git status for " ++ rootDir ++ ": " ++ env.statusErrMsg))
  else if env.stagedFiles.length = 0 then
    if env.status.staged.length = 0 ∧ env.status.modified.length = 0 ∧
        env.status.not_added.length = 0 ∧ env.status.deleted.length = 0 then
      .ok (noChangesResponse style)
    else
      .ok (noStagedResponse style env.status)
  else
    if (changedFilesOf env).length = 0 then
      .ok (onlyExcludedResponse style env.stagedFiles.length)
    else if maxSuggestions = 0 then
      .error (.gitOperation "Failed to generate any commit message suggestions")
    else
      .ok (mainResponse style maxSuggestions includeScope (changedFilesOf env))

/-- `generateCommitMessage`: the engine entry point.  The outer catch turns
both recoverable error classes into terminal single-suggestion responses. -/
def generateCommitMessage (env : RepoEnv) (rootDir style : String) (maxSuggestions : Nat)
    (includeScope : Bool) : CommitMessageResponse :=
  match generateCommitMessageCore env rootDir style maxSuggestions includeScope with
  | .ok r => r
  | .error (.validation msg) => validationErrorResponse style msg
  | .error (.gitOperation msg) => gitOperationFailedResponse style msg

/-- The per-file diff entries returned by the secondary accessor: skip falsy
paths and excluded paths, attach the raw diff text. -/
def diffEntries (env : RepoEnv) (files : List SummaryFile) : List FileDiff :=
  files.filterMap (fun f =>
    if f.file = "" then none
    else if isExcluded f.file then none
    else some ⟨f.file, env.diffOf f.file⟩)

/-- `getFileChangesInDirectory`: the secondary read accessor.  It prefers the
staged diff summary and falls back to the working-tree summary when the
staged one is empty. -/
def getFileChangesInDirectory (env : RepoEnv) (rootDir : String) :
    Except EngineError (List FileDiff) :=
  if rootDir = "" then
    .error (.validation "Root directory must be a non-empty string")
  else if env.dirExists = false then
    .error (.validation ("Directory does not exist: " ++ rootDir))
  else if env.isRepo = false then
    .error (.validation ("Directory is not a Git repository: " ++ rootDir ++ ". Initialize with \x27git init\x27 first."))
  else if env.diffOk = false then
    .error (.gitOperation ("Failed to get diff summary for " ++ rootDir ++ ": " ++ env.diffErrMsg))
  else
    let summaryFiles := if env.stagedFiles.length = 0 then env.workingFiles else env.stagedFiles
    .ok (diffEntries env summaryFiles)

/-- The spec-side conventional renderer, used to state the amended rendering
claim: modelled from the amended claim's words (type and scope lower-cased
and trimmed, description trimmed; `type(scope): description` when the scope
is included and non-empty; variant 1 substitutes the word `update` with
`improve`, variant 2 with `modify`, other variants render verbatim). -/
def convMessageSpec (type scope description : String) (includeScope : Bool)
    (variant : Nat) : String :=
  let safeType := strTrim (strToLower type)
  let safeScope := strTrim (strToLower scope)
  let safeDescription := strTrim description
  let scopeStr := if includeScope = true ∧ safeScope ≠ "" then "(" ++ safeScope ++ ")" else ""
  let body :=
    if variant = 1 then jsReplaceWordAll safeDescription "update" "improve"
    else if variant = 2 then jsReplaceWordAll safeDescription "update" "modify"
    else safeDescription
  safeType ++ scopeStr ++ ": " ++ body

/-! ### Concrete environments used by witnesses and counterexamples -/

/-- A repository with one modified-but-unstaged TypeScript file. -/
def envNoStaged : RepoEnv :=
  { dirExists := true, isRepo := true, statusOk := true, diffOk := true,
    status := ⟨[], ["a.ts"], [], []⟩, stagedFiles := [],
    workingFiles := [⟨"a.ts", some (3, 1)⟩],
    diffOf := fun _ => "", statusErrMsg := "", diffErrMsg := "" }

/-- A repository whose staged changes touch only excluded paths. -/
def envExcluded : RepoEnv :=
  { dirExists := true, isRepo := true, statusOk := true, diffOk := true,
    status := ⟨["bun.lock"], [], [], []⟩,
    stagedFiles := [⟨"dist/bundle.js", some (9, 0)⟩, ⟨"bun.lock", some (2, 0)⟩],
    workingFiles := [], diffOf := fun _ => "", statusErrMsg := "", diffErrMsg := "" }

/-- A repository with one staged new TypeScript file. -/
def envMain : RepoEnv :=
  { dirExists := true, isRepo := true, statusOk := true, diffOk := true,
    status := ⟨["src/utils/helper.ts"], [], [], []⟩,
    stagedFiles := [⟨"src/utils/helper.ts", some (1, 0)⟩],
    workingFiles := [], diffOf := fun _ => "", statusErrMsg := "", diffErrMsg := "" }

/-! ### Shared lemmas -/

theorem generateSuggestion_priority (a : ChangeAnalysis) (style : String) (ic : Bool) (v : Nat) :
    (generateSuggestion a style ic v).priority = if v = 0 then "primary" else "alternative" := by
  by_cases h : style = "" <;> simp [generateSuggestion, fallbackSuggestion, h]

/-! ### Claim C9: `generateSuggestion` is deterministic -/

/-- Claim C9: the message synthesizer `generateSuggestion` is a deterministic
pure function of its inputs: two calls with field-wise equal analyses, equal
style, equal scope flag and equal variant index return identical suggestions
in every field. -/
theorem C9_generateSuggestion_deterministic (a1 a2 : ChangeAnalysis) (s1 s2 : String)
    (i1 i2 : Bool) (v1 v2 : Nat)
    (ht : a1.type = a2.type) (hsc : a1.scope = a2.scope)
    (hd : a1.description = a2.description) (hft : a1.fileTypes = a2.fileTypes)
    (hct : a1.changeTypes = a2.changeTypes)
    (hs : s1 = s2) (hi : i1 = i2) (hv : v1 = v2) :
    generateSuggestion a1 s1 i1 v1 = generateSuggestion a2 s2 i2 v2 := by
  have ha : a1 = a2 := by
    cases a1; cases a2
    simp_all
  rw [ha, hs, hi, hv]

/-- Witness for C9 at concrete inputs. -/
theorem C9_witness :
    generateSuggestion ⟨"feat", "auth", "update code", ["ts"], ["addition"]⟩ "conventional" true 1 =
      generateSuggestion ⟨"feat", "auth", "update code", ["ts"], ["addition"]⟩ "conventional" true 1 :=
  C9_generateSuggestion_deterministic _ _ _ _ _ _ _ _ rfl rfl rfl rfl rfl rfl rfl rfl

/-! ### Claim C8: conventional-style rendering -/

/-- Counterexample for C8 as stated: the rendering is not literally
`type(scope): description` over the aggregate's fields — scope (and type)
are lower-cased first.  With scope `Auth` the claimed message
`feat(Auth): update code` is not produced; `feat(auth): update code` is. -/
theorem C8_counterexample :
    (generateSuggestion ⟨"feat", "Auth", "update code", [], []⟩ "conventional" true 0).message =
        "feat(auth): update code" ∧
    (generateSuggestion ⟨"feat", "Auth", "update code", [], []⟩ "conventional" true 0).message ≠
        "feat(Auth): update code" := by
  constructor
  · rfl
  · decide

/-- Claim C8 (amended): after lower-casing and trimming type and scope and
trimming the description, conventional rendering produces
`type(scope): description` when the scope is included and non-empty and
`type: description` otherwise; variant 0 renders the description verbatim,
variant 1 substitutes word-boundary `update` by `improve`, variant 2 by
`modify`, and every variant index at least 3 repeats the variant-0
rendering.  Stated as: the rendered message coincides with the spec-side
renderer `convMessageSpec` for every input and variant. -/
theorem C8_conventional_rendering (type scope description : String)
    (ft ct : List String) (ic : Bool) (v : Nat) :
    (generateSuggestion ⟨type, scope, description, ft, ct⟩ "conventional" ic v).message =
      convMessageSpec type scope description ic v := by
  rcases v with _ | _ | _ | n <;> rfl

/-! ### Claim C2: the `length` field versus the message length -/

/-- Claim C2 (code bug): the terminal responses hard-code their `length`
fields, and two of them are swapped.  For a repository with modified but
unstaged files, the single suggestion `No staged changes detected` carries
`length = 27` while its message has 26 characters; for a change set of
excluded files only, `Only excluded files changed` carries `length = 26`
while its message has 27 characters.  (Suggestions produced by
`generateSuggestion` compute `length` from the message and are correct.) -/
theorem C2_length_field_bug :
    (generateCommitMessage envNoStaged "/repo" "conventional" 3 true).suggestions.map
        (fun s => (s.length, s.message.length)) = [(27, 26)] ∧
    (generateCommitMessage envExcluded "/repo" "conventional" 3 true).suggestions.map
        (fun s => (s.length, s.message.length)) = [(26, 27)] ∧
    (∀ a style ic v, (generateSuggestion a style ic v).length =
      (generateSuggestion a style ic v).message.length) := by
  refine ⟨by decide, by decide, ?_⟩
  intro a style ic v
  by_cases h : style = "" <;> simp [generateSuggestion, fallbackSuggestion, h]

/-! ### Claim C6 counterexample: the docs rule needs an `md` extension -/

/-- Counterexample for C6 as stated: a change set whose only file
`readme.txt` contains `readme` (so every file satisfies the claim's
disjunction) is classified `feat`, not `docs`, because the rule also
requires some file with the `md` extension. -/
theorem C6_counterexample :
    strContains (strToLower "readme.txt") "readme" = true ∧
    (analyzeChanges [⟨"readme.txt", some (1, 0)⟩]).type = "feat" ∧
    (analyzeChanges [⟨"readme.txt", some (1, 0)⟩]).type ≠ "docs" := by
  refine ⟨by decide, by decide, by decide⟩

/-! ### Claim C4: validation failures yield the terminal error response -/

/-- Claim C4: a call with an empty `rootDir` or with `maxSuggestions` outside
`[1,5]` returns (never throws) a terminal response with exactly one
suggestion of type `error` whose message is the fixed label
`Validation Error` and whose rationale carries the validation message. -/
theorem C4_validation_error_response (env : RepoEnv) (rootDir style : String)
    (maxS : Nat) (ic : Bool)
    (h : rootDir = "" ∨ maxS < 1 ∨ 5 < maxS) :
    (generateCommitMessage env rootDir style maxS ic).suggestions.length = 1 ∧
    (∀ s ∈ (generateCommitMessage env rootDir style maxS ic).suggestions,
      s.type = "error" ∧ s.message = "Validation Error") ∧
    (rootDir = "" → ∀ s ∈ (generateCommitMessage env rootDir style maxS ic).suggestions,
      s.rationale = "Root directory must be a non-empty string") ∧
    (rootDir ≠ "" → ∀ s ∈ (generateCommitMessage env rootDir style maxS ic).suggestions,
      s.rationale = "Maximum suggestions must be between 1 and 5") := by
  by_cases hr : rootDir = ""
  · simp [generateCommitMessage, generateCommitMessageCore, hr, validationErrorResponse]
  · have hm : maxS < 1 ∨ 5 < maxS := by
      rcases h with h | h
      · exact absurd h hr
      · exact h
    unfold generateCommitMessage generateCommitMessageCore
    rw [if_neg hr, if_pos hm]
    simp [validationErrorResponse, hr]

/-- Witness for C4: `maxSuggestions = 6` with a non-empty root. -/
theorem C4_witness :
    (generateCommitMessage envMain "/repo" "conventional" 6 true).suggestions.length = 1 ∧
    (∀ s ∈ (generateCommitMessage envMain "/repo" "conventional" 6 true).suggestions,
      s.type = "error" ∧ s.message = "Validation Error") ∧
    ("/repo" = "" → ∀ s ∈ (generateCommitMessage envMain "/repo" "conventional" 6 true).suggestions,
      s.rationale = "Root directory must be a non-empty string") ∧
    ("/repo" ≠ "" → ∀ s ∈ (generateCommitMessage envMain "/repo" "conventional" 6 true).suggestions,
      s.rationale = "Maximum suggestions must be between 1 and 5") :=
  C4_validation_error_response envMain "/repo" "conventional" 6 true (by decide)

/-! ### Claim C5: all-excluded change sets short-circuit -/

/-- Claim C5: a non-empty change set in which every path matches an exclusion
marker yields exactly the terminal response with one suggestion
`Only excluded files changed` of type `chore`; no aggregation happens. -/
theorem C5_only_excluded_short_circuit (env : RepoEnv) (rootDir style : String)
    (maxS : Nat) (ic : Bool)
    (hroot : rootDir ≠ "") (h1 : 1 ≤ maxS) (h5 : maxS ≤ 5)
    (hdir : env.dirExists = true) (hrepo : env.isRepo = true) (hstat : env.statusOk = true)
    (hne : env.stagedFiles ≠ [])
    (hex : ∀ f ∈ env.stagedFiles, isExcluded f.file = true) :
    generateCommitMessage env rootDir style maxS ic =
      onlyExcludedResponse style env.stagedFiles.length ∧
    (generateCommitMessage env rootDir style maxS ic).suggestions.map
      (fun s => (s.message, s.type)) = [("Only excluded files changed", "chore")] := by
  have hfilter : changedFilesOf env = [] := by
    unfold changedFilesOf
    rw [List.filter_eq_nil_iff]
    intro f hf
    simp [hex f hf]
  have hlen : ¬env.stagedFiles.length = 0 := by
    simpa [List.length_eq_zero] using hne
  have hcond : ¬(maxS < 1 ∨ 5 < maxS) := by omega
  have hmain : generateCommitMessage env rootDir style maxS ic =
      onlyExcludedResponse style env.stagedFiles.length := by
    unfold generateCommitMessage generateCommitMessageCore
    rw [if_neg hroot, if_neg hcond, hdir, hrepo, hstat]
    simp [hlen, hfilter]
  exact ⟨hmain, by rw [hmain]; simp [onlyExcludedResponse]⟩

/-- Witness for C5 at a change set of `dist/bundle.js` and `bun.lock`. -/
theorem C5_witness :
    generateCommitMessage envExcluded "/repo" "conventional" 3 true =
      onlyExcludedResponse "conventional" envExcluded.stagedFiles.length ∧
    (generateCommitMessage envExcluded "/repo" "conventional" 3 true).suggestions.map
      (fun s => (s.message, s.type)) = [("Only excluded files changed", "chore")] :=
  C5_only_excluded_short_circuit envExcluded "/repo" "conventional" 3 true
    (by decide) (by decide) (by decide) (by decide) (by decide) (by decide)
    (by decide) (by decide)

/-! ### Claim C3: staged preference and the no-staged short-circuit -/

/-- Counterexample for C3 as stated: with nothing staged but a modified
working-tree file, `generateCommitMessage` does not aggregate the unstaged
changes — it short-circuits with the terminal `No staged changes detected`
response. -/
theorem C3_counterexample :
    envNoStaged.stagedFiles = [] ∧ envNoStaged.workingFiles ≠ [] ∧
    (generateCommitMessage envNoStaged "/repo" "conventional" 3 true).suggestions.map
      (fun s => (s.message, s.type)) = [("No staged changes detected", "none")] := by
  refine ⟨rfl, by decide, by decide⟩

/-- Claim C3 (amended): the secondary accessor `getFileChangesInDirectory`
prefers the staged change set and falls back to the working-tree change set
when nothing is staged; the engine entry point `generateCommitMessage`, by
contrast, short-circuits with the terminal `No staged changes detected`
response when nothing is staged but files are modified. -/
theorem C3_staged_preference_and_short_circuit (env : RepoEnv) (rootDir style : String)
    (maxS : Nat) (ic : Bool)
    (hroot : rootDir ≠ "") (h1 : 1 ≤ maxS) (h5 : maxS ≤ 5)
    (hdir : env.dirExists = true) (hrepo : env.isRepo = true)
    (hdiff : env.diffOk = true) (hstat : env.statusOk = true) :
    (env.stagedFiles ≠ [] →
      getFileChangesInDirectory env rootDir = .ok (diffEntries env env.stagedFiles)) ∧
    (env.stagedFiles = [] →
      getFileChangesInDirectory env rootDir = .ok (diffEntries env env.workingFiles)) ∧
    (env.stagedFiles = [] → env.status.modified ≠ [] →
      generateCommitMessage env rootDir style maxS ic = noStagedResponse style env.status) := by
  refine ⟨?_, ?_, ?_⟩
  · intro hne
    have hlen : ¬env.stagedFiles.length = 0 := by
      simpa [List.length_eq_zero] using hne
    unfold getFileChangesInDirectory
    rw [if_neg hroot, hdir, hrepo, hdiff]
    simp [hlen]
  · intro hnil
    unfold getFileChangesInDirectory
    rw [if_neg hroot, hdir, hrepo, hdiff]
    simp [hnil]
  · intro hnil hmod
    have hcond : ¬(maxS < 1 ∨ 5 < maxS) := by omega
    have hmlen : ¬env.status.modified.length = 0 := by
      simpa [List.length_eq_zero] using hmod
    unfold generateCommitMessage generateCommitMessageCore
    rw [if_neg hroot, if_neg hcond, hdir, hrepo, hstat]
    simp [hnil, hmlen]

/-- Witness for C3 at a concrete environment with one staged file. -/
theorem C3_witness :
    (envMain.stagedFiles ≠ [] →
      getFileChangesInDirectory envMain "/repo" = .ok (diffEntries envMain envMain.stagedFiles)) ∧
    (envMain.stagedFiles = [] →
      getFileChangesInDirectory envMain "/repo" = .ok (diffEntries envMain envMain.workingFiles)) ∧
    (envMain.stagedFiles = [] → envMain.status.modified ≠ [] →
      generateCommitMessage envMain "/repo" "conventional" 3 true =
        noStagedResponse "conventional" envMain.status) :=
  C3_staged_preference_and_short_circuit envMain "/repo" "conventional" 3 true
    (by decide) (by decide) (by decide) (by decide) (by decide) (by decide) (by decide)

/-! ### Claim C1: response shape for valid inputs -/

/-- Claim C1: for every valid input (non-empty `rootDir`, `maxSuggestions`
in `[1,5]`, any style, any scope flag) the returned response has between 1
and `maxSuggestions` suggestions, the suggestion at index 0 has priority
`primary`, and every suggestion at an index above 0 has priority
`alternative`. -/
theorem C1_response_shape (env : RepoEnv) (rootDir style : String) (maxS : Nat) (ic : Bool)
    (hroot : rootDir ≠ "") (h1 : 1 ≤ maxS) (h5 : maxS ≤ 5) :
    1 ≤ (generateCommitMessage env rootDir style maxS ic).suggestions.length ∧
    (generateCommitMessage env rootDir style maxS ic).suggestions.length ≤ maxS ∧
    ∀ i s, (generateCommitMessage env rootDir style maxS ic).suggestions[i]? = some s →
      s.priority = if i = 0 then "primary" else "alternative" := by
  have hsingle : ∀ t : CommitMessageSuggestion, t.priority = "primary" →
      1 ≤ ([t]).length ∧ ([t]).length ≤ maxS ∧
      ∀ i s, ([t])[i]? = some s → s.priority = if i = 0 then "primary" else "alternative" := by
    intro t ht
    refine ⟨by simp, by simpa using h1, ?_⟩
    intro i s hs
    rcases i with _ | j
    · simp at hs
      simp [← hs, ht]
    · simp at hs
  have hmain : ∀ cf : List SummaryFile,
      1 ≤ (mainResponse style maxS ic cf).suggestions.length ∧
      (mainResponse style maxS ic cf).suggestions.length ≤ maxS ∧
      ∀ i s, (mainResponse style maxS ic cf).suggestions[i]? = some s →
        s.priority = if i = 0 then "primary" else "alternative" := by
    intro cf
    refine ⟨by simpa [mainResponse] using h1, by simp [mainResponse], ?_⟩
    intro i s hs
    simp only [mainResponse, List.getElem?_map] at hs
    by_cases hi : i < maxS
    · have hr : (List.range maxS)[i]? = some i := by
        rw [List.getElem?_eq_getElem (by simpa using hi)]
        simp
      rw [hr] at hs
      simp only [Option.map_some'] at hs
      obtain rfl : generateSuggestion (analyzeChanges cf) style ic i = s := by
        exact Option.some.inj hs
      exact generateSuggestion_priority _ _ _ _
    · have hr : (List.range maxS)[i]? = none := by
        rw [List.getElem?_eq_none]
        simpa using hi
      rw [hr] at hs
      cases hs
  have hcond : ¬(maxS < 1 ∨ 5 < maxS) := by omega
  have hm0 : ¬maxS = 0 := by omega
  unfold generateCommitMessage generateCommitMessageCore
  rw [if_neg hroot, if_neg hcond]
  by_cases hde : env.dirExists = false
  · rw [if_pos hde]; exact hsingle _ rfl
  rw [if_neg hde]
  by_cases hrp : env.isRepo = false
  · rw [if_pos hrp]; exact hsingle _ rfl
  rw [if_neg hrp]
  by_cases hso : env.statusOk = false
  · rw [if_pos hso]; exact hsingle _ rfl
  rw [if_neg hso]
  by_cases hsf : env.stagedFiles.length = 0
  · rw [if_pos hsf]
    by_cases hall : env.status.staged.length = 0 ∧ env.status.modified.length = 0 ∧
        env.status.not_added.length = 0 ∧ env.status.deleted.length = 0
    · rw [if_pos hall]; exact hsingle _ rfl
    · rw [if_neg hall]; exact hsingle _ rfl
  rw [if_neg hsf]
  by_cases hcf : (changedFilesOf env).length = 0
  · rw [if_pos hcf]; exact hsingle _ rfl
  rw [if_neg hcf, if_neg hm0]
  exact hmain _

/-- Witness for C1 at a concrete repository and `maxSuggestions = 3`. -/
theorem C1_witness :
    1 ≤ (generateCommitMessage envMain "/repo" "conventional" 3 true).suggestions.length ∧
    (generateCommitMessage envMain "/repo" "conventional" 3 true).suggestions.length ≤ 3 ∧
    ∀ i s, (generateCommitMessage envMain "/repo" "conventional" 3 true).suggestions[i]? = some s →
      s.priority = if i = 0 then "primary" else "alternative" :=
  C1_response_shape envMain "/repo" "conventional" 3 true (by decide) (by decide) (by decide)

/-! ### Claim C7: scope derivation for `src/auth` change sets -/

theorem analysisStep_pos_zero (s : AnalysisState) (name : String) (ins : Nat) (h : 0 < ins) :
    analysisStep s ⟨name, some (ins, 0)⟩ = analysisStep s ⟨name, some (1, 0)⟩ := by
  by_cases hn : name = "" <;> simp [analysisStep, hn, h]

theorem analysisStep_zero_pos (s : AnalysisState) (name : String) (del : Nat) (h : 0 < del) :
    analysisStep s ⟨name, some (0, del)⟩ = analysisStep s ⟨name, some (0, 1)⟩ := by
  have hd : ¬del = 0 := by omega
  by_cases hn : name = "" <;> simp [analysisStep, hn, h, hd]

theorem analysisStep_pos_pos (s : AnalysisState) (name : String) (ins del : Nat)
    (hi : 0 < ins) (hd : 0 < del) :
    analysisStep s ⟨name, some (ins, del)⟩ = analysisStep s ⟨name, some (1, 1)⟩ := by
  have hi0 : ¬ins = 0 := by omega
  have hd0 : ¬del = 0 := by omega
  by_cases hn : name = "" <;> simp [analysisStep, hn, hi0, hd0]

/-- Claim C7: for the change set `src/auth/login.ts`, `src/auth/register.ts`
the scope resolver skips the generic `src` segment and yields `auth`; the
conventional variant-0 message is `refactor(auth): restructure code` when one
file is net-added and the other net-deleted (in either order), and
`refactor(auth): update implementation` when both files mix insertions and
deletions. -/
theorem C7_auth_scope_and_messages (a b c d : Nat)
    (ha : 0 < a) (hb : 0 < b) (hc : 0 < c) (hd : 0 < d) :
    ((analyzeChanges [⟨"src/auth/login.ts", some (a, 0)⟩, ⟨"src/auth/register.ts", some (0, b)⟩]).scope = "auth" ∧
     (generateSuggestion (analyzeChanges [⟨"src/auth/login.ts", some (a, 0)⟩, ⟨"src/auth/register.ts", some (0, b)⟩])
        "conventional" true 0).message = "refactor(auth): restructure code") ∧
    ((analyzeChanges [⟨"src/auth/login.ts", some (0, a)⟩, ⟨"src/auth/register.ts", some (b, 0)⟩]).scope = "auth" ∧
     (generateSuggestion (analyzeChanges [⟨"src/auth/login.ts", some (0, a)⟩, ⟨"src/auth/register.ts", some (b, 0)⟩])
        "conventional" true 0).message = "refactor(auth): restructure code") ∧
    ((analyzeChanges [⟨"src/auth/login.ts", some (a, b)⟩, ⟨"src/auth/register.ts", some (c, d)⟩]).scope = "auth" ∧
     (generateSuggestion (analyzeChanges [⟨"src/auth/login.ts", some (a, b)⟩, ⟨"src/auth/register.ts", some (c, d)⟩])
        "conventional" true 0).message = "refactor(auth): update implementation") := by
  have e1 : analyzeChanges [⟨"src/auth/login.ts", some (a, 0)⟩, ⟨"src/auth/register.ts", some (0, b)⟩] =
      analyzeChanges [⟨"src/auth/login.ts", some (1, 0)⟩, ⟨"src/auth/register.ts", some (0, 1)⟩] := by
    unfold analyzeChanges adjustedState validFilesOf
    rw [List.foldl_cons, List.foldl_cons, analysisStep_pos_zero _ _ _ ha,
      analysisStep_zero_pos _ _ _ hb]
    rfl
  have e2 : analyzeChanges [⟨"src/auth/login.ts", some (0, a)⟩, ⟨"src/auth/register.ts", some (b, 0)⟩] =
      analyzeChanges [⟨"src/auth/login.ts", some (0, 1)⟩, ⟨"src/auth/register.ts", some (1, 0)⟩] := by
    unfold analyzeChanges adjustedState validFilesOf
    rw [List.foldl_cons, List.foldl_cons, analysisStep_zero_pos _ _ _ ha,
      analysisStep_pos_zero _ _ _ hb]
    rfl
  have e3 : analyzeChanges [⟨"src/auth/login.ts", some (a, b)⟩, ⟨"src/auth/register.ts", some (c, d)⟩] =
      analyzeChanges [⟨"src/auth/login.ts", some (1, 1)⟩, ⟨"src/auth/register.ts", some (1, 1)⟩] := by
    unfold analyzeChanges adjustedState validFilesOf
    rw [List.foldl_cons, List.foldl_cons, analysisStep_pos_pos _ _ _ _ ha hb,
      analysisStep_pos_pos _ _ _ _ hc hd]
    rfl
  rw [e1, e2, e3]
  refine ⟨⟨by decide, by decide⟩, ⟨by decide, by decide⟩, by decide, by decide⟩

/-- Witness for C7 at unit insertion/deletion counts. -/
theorem C7_witness :
    ((analyzeChanges [⟨"src/auth/login.ts", some (1, 0)⟩, ⟨"src/auth/register.ts", some (0, 1)⟩]).scope = "auth" ∧
     (generateSuggestion (analyzeChanges [⟨"src/auth/login.ts", some (1, 0)⟩, ⟨"src/auth/register.ts", some (0, 1)⟩])
        "conventional" true 0).message = "refactor(auth): restructure code") ∧
    ((analyzeChanges [⟨"src/auth/login.ts", some (0, 1)⟩, ⟨"src/auth/register.ts", some (1, 0)⟩]).scope = "auth" ∧
     (generateSuggestion (analyzeChanges [⟨"src/auth/login.ts", some (0, 1)⟩, ⟨"src/auth/register.ts", some (1, 0)⟩])
        "conventional" true 0).message = "refactor(auth): restructure code") ∧
    ((analyzeChanges [⟨"src/auth/login.ts", some (1, 1)⟩, ⟨"src/auth/register.ts", some (1, 1)⟩]).scope = "auth" ∧
     (generateSuggestion (analyzeChanges [⟨"src/auth/login.ts", some (1, 1)⟩, ⟨"src/auth/register.ts", some (1, 1)⟩])
        "conventional" true 0).message = "refactor(auth): update implementation") :=
  C7_auth_scope_and_messages 1 1 1 1 (by decide) (by decide) (by decide) (by decide)

/-! ### Membership lemmas for the analysis fold -/

theorem mem_insertUniq_self (l : List String) (x : String) : x ∈ insertUniq l x := by
  unfold insertUniq
  split
  · assumption
  · simp

theorem mem_insertUniq_of_mem (l : List String) (x y : String) (h : y ∈ l) :
    y ∈ insertUniq l x := by
  unfold insertUniq
  split
  · exact h
  · simp [h]

theorem analysisStep_fileTypes (s : AnalysisState) (f : SummaryFile) :
    (analysisStep s f).fileTypes =
      if f.file = "" then s.fileTypes
      else if jsExtOf f.file ≠ "" ∧ (jsExtOf f.file).length ≤ 10 then
        insertUniq s.fileTypes (jsExtOf f.file)
      else s.fileTypes := by
  rcases f with ⟨name, counts⟩
  by_cases hn : name = ""
  · simp [analysisStep, hn]
  · rcases counts with _ | ⟨ins, del⟩
    · by_cases hc : jsExtOf name ≠ "" ∧ (jsExtOf name).length ≤ 10 <;>
        simp [analysisStep, hn, hc]
    · by_cases hc : jsExtOf name ≠ "" ∧ (jsExtOf name).length ≤ 10 <;>
      by_cases h1 : 0 < ins ∧ del = 0 <;>
      by_cases h2 : 0 < del ∧ ins = 0 <;>
        simp [analysisStep, hn, hc, h1, h2]

theorem fileTypes_mono_step (s : AnalysisState) (g : SummaryFile) (x : String)
    (h : x ∈ s.fileTypes) : x ∈ (analysisStep s g).fileTypes := by
  rw [analysisStep_fileTypes]
  split
  · exact h
  · split
    · exact mem_insertUniq_of_mem _ _ _ h
    · exact h

theorem fileTypes_mono_foldl (files : List SummaryFile) (s : AnalysisState) (x : String)
    (h : x ∈ s.fileTypes) : x ∈ (files.foldl analysisStep s).fileTypes := by
  induction files generalizing s with
  | nil => exact h
  | cons g gs ih =>
    rw [List.foldl_cons]
    exact ih _ (fileTypes_mono_step s g x h)

theorem mem_fileTypes_foldl (files : List SummaryFile) (s : AnalysisState) (f : SummaryFile)
    (hf : f ∈ files) (hn : f.file ≠ "") (he : jsExtOf f.file ≠ "")
    (hl : (jsExtOf f.file).length ≤ 10) :
    jsExtOf f.file ∈ (files.foldl analysisStep s).fileTypes := by
  induction files generalizing s with
  | nil => cases hf
  | cons g gs ih =>
    rw [List.foldl_cons]
    rcases List.mem_cons.mp hf with rfl | hf
    · have h1 : jsExtOf f.file ∈ (analysisStep s f).fileTypes := by
        rw [analysisStep_fileTypes, if_neg hn, if_pos ⟨he, hl⟩]
        exact mem_insertUniq_self _ _
      exact fileTypes_mono_foldl gs _ _ h1
    · exact ih _ hf

theorem adjustFileTypes_fileTypes_of_mem (st : AnalysisState) (x : String)
    (h : x ∈ st.fileTypes) : (adjustFileTypes st).fileTypes = st.fileTypes := by
  unfold adjustFileTypes
  have hne : ¬st.fileTypes.length = 0 := by
    rw [List.length_eq_zero]
    intro hh
    rw [hh] at h
    cases h
  rw [if_neg hne]

theorem adjustChangeTypes_fileTypes (st : AnalysisState) :
    (adjustChangeTypes st).fileTypes = st.fileTypes := by
  unfold adjustChangeTypes
  split <;> rfl

theorem mem_fileTypes_adjusted (files : List SummaryFile) (x : String)
    (h : x ∈ (files.foldl analysisStep initAnalysisState).fileTypes) :
    x ∈ (adjustedState files).fileTypes := by
  unfold adjustedState
  rw [adjustChangeTypes_fileTypes, adjustFileTypes_fileTypes_of_mem _ _ h]
  exact h

/-! ### Claim C6: the documentation classification rule -/

/-- Claim C6 (amended): for a change-file list that contains at least one
file with the `md` extension and in which every (valid) file either has a
path containing `readme` (case-insensitively) or ends in `.md`, the
aggregator classifies the change as type `docs` with description
`update documentation`; and the concrete change set `README.md`,
`docs/api.md` yields the variant-0 conventional message
`docs: update documentation` with no scope. -/
theorem C6_docs_classification (files : List SummaryFile)
    (hmd : ∃ f ∈ files, f.file ≠ "" ∧ jsExtOf f.file = "md")
    (hall : ∀ f ∈ files, f.file ≠ "" →
      (strContains (strToLower f.file) "readme" = true ∨ strEndsWith f.file ".md" = true)) :
    ((analyzeChanges files).type = "docs" ∧
     (analyzeChanges files).description = "update documentation") ∧
    ((analyzeChanges [⟨"README.md", some (2, 1)⟩, ⟨"docs/api.md", some (3, 0)⟩]).type = "docs" ∧
     (generateSuggestion (analyzeChanges [⟨"README.md", some (2, 1)⟩, ⟨"docs/api.md", some (3, 0)⟩])
        "conventional" true 0).message = "docs: update documentation" ∧
     (generateSuggestion (analyzeChanges [⟨"README.md", some (2, 1)⟩, ⟨"docs/api.md", some (3, 0)⟩])
        "conventional" true 0).scope = none) := by
  refine ⟨?_, by decide, by decide, by decide⟩
  obtain ⟨f, hf, hfn, hfe⟩ := hmd
  have hne : files ≠ [] := by
    intro hh
    rw [hh] at hf
    cases hf
  have hmem : "md" ∈ (adjustedState files).fileTypes := by
    have h0 := mem_fileTypes_foldl files initAnalysisState f hf hfn
      (by rw [hfe]; decide) (by rw [hfe]; decide)
    rw [hfe] at h0
    exact mem_fileTypes_adjusted files _ h0
  have hfv : f ∈ validFilesOf files := by
    unfold validFilesOf
    rw [List.mem_filter]
    refine ⟨hf, by simp [hfn]⟩
  have hvne : 0 < (validFilesOf files).length := by
    rw [List.length_pos]
    intro hh
    rw [hh] at hfv
    cases hfv
  have hallb : (validFilesOf files).all
      (fun f => strContains (strToLower f.file) "readme" || strEndsWith f.file ".md") = true := by
    rw [List.all_eq_true]
    intro g hg
    have hg2 := List.mem_filter.mp hg
    have hgn : g.file ≠ "" := by simpa using hg2.2
    rcases hall g hg2.1 hgn with h | h <;> simp [h]
  have htsd : determineTypeScopeDesc (adjustedState files) (validFilesOf files) =
      ("docs", "", "update documentation") := by
    unfold determineTypeScopeDesc
    rw [if_pos ⟨hmem, hvne, hallb⟩]
  have hlen : ¬files.length = 0 := by
    simpa [List.length_eq_zero] using hne
  constructor
  · unfold analyzeChanges
    rw [if_neg hlen]
    simp only [htsd]
  · unfold analyzeChanges
    rw [if_neg hlen]
    simp only [htsd]

/-- Witness for C6 at the singleton change set `README.md`. -/
theorem C6_witness :
    ((analyzeChanges [⟨"README.md", some (1, 0)⟩]).type = "docs" ∧
     (analyzeChanges [⟨"README.md", some (1, 0)⟩]).description = "update documentation") ∧
    ((analyzeChanges [⟨"README.md", some (2, 1)⟩, ⟨"docs/api.md", some (3, 0)⟩]).type = "docs" ∧
     (generateSuggestion (analyzeChanges [⟨"README.md", some (2, 1)⟩, ⟨"docs/api.md", some (3, 0)⟩])
        "conventional" true 0).message = "docs: update documentation" ∧
     (generateSuggestion (analyzeChanges [⟨"README.md", some (2, 1)⟩, ⟨"docs/api.md", some (3, 0)⟩])
        "conventional" true 0).scope = none) :=
  C6_docs_classification [⟨"README.md", some (1, 0)⟩] (by decide) (by decide)

/-! ### Claim C10: the `fix` outcome is unreachable -/

theorem analysisStep_disj (s : AnalysisState) (f : SummaryFile)
    (h : s.changeTypes ≠ [] →
      (s.hasNewFiles = true ∨ s.hasDeletedFiles = true ∨ s.hasModifiedFiles = true)) :
    (analysisStep s f).changeTypes ≠ [] →
      ((analysisStep s f).hasNewFiles = true ∨ (analysisStep s f).hasDeletedFiles = true ∨
        (analysisStep s f).hasModifiedFiles = true) := by
  rcases f with ⟨name, counts⟩
  by_cases hn : name = ""
  · simpa [analysisStep, hn] using h
  · rcases counts with _ | ⟨ins, del⟩
    · intro _
      simp [analysisStep, hn]
    · by_cases h1 : 0 < ins ∧ del = 0
      · intro _
        simp [analysisStep, hn, h1]
      · by_cases h2 : 0 < del ∧ ins = 0
        · intro _
          simp [analysisStep, hn, h1, h2]
        · intro _
          simp [analysisStep, hn, h1, h2]

theorem foldl_disj (files : List SummaryFile) (s : AnalysisState)
    (h : s.changeTypes ≠ [] →
      (s.hasNewFiles = true ∨ s.hasDeletedFiles = true ∨ s.hasModifiedFiles = true)) :
    (files.foldl analysisStep s).changeTypes ≠ [] →
      ((files.foldl analysisStep s).hasNewFiles = true ∨
        (files.foldl analysisStep s).hasDeletedFiles = true ∨
        (files.foldl analysisStep s).hasModifiedFiles = true) := by
  induction files generalizing s with
  | nil => exact h
  | cons f fs ih =>
    rw [List.foldl_cons]
    exact ih _ (analysisStep_disj s f h)

theorem adjustFileTypes_changeTypes (st : AnalysisState) :
    (adjustFileTypes st).changeTypes = st.changeTypes := by
  unfold adjustFileTypes
  split <;> rfl

theorem adjustFileTypes_hasNewFiles (st : AnalysisState) :
    (adjustFileTypes st).hasNewFiles = st.hasNewFiles := by
  unfold adjustFileTypes
  split <;> rfl

theorem adjustFileTypes_hasDeletedFiles (st : AnalysisState) :
    (adjustFileTypes st).hasDeletedFiles = st.hasDeletedFiles := by
  unfold adjustFileTypes
  split <;> rfl

theorem adjustFileTypes_hasModifiedFiles (st : AnalysisState) :
    (adjustFileTypes st).hasModifiedFiles = st.hasModifiedFiles := by
  unfold adjustFileTypes
  split <;> rfl

theorem adjustChangeTypes_disj (st : AnalysisState)
    (h : st.changeTypes ≠ [] →
      (st.hasNewFiles = true ∨ st.hasDeletedFiles = true ∨ st.hasModifiedFiles = true)) :
    (adjustChangeTypes st).hasNewFiles = true ∨ (adjustChangeTypes st).hasDeletedFiles = true ∨
      (adjustChangeTypes st).hasModifiedFiles = true := by
  unfold adjustChangeTypes
  by_cases hc : st.changeTypes.length = 0
  · rw [if_pos hc]
    right; right; rfl
  · rw [if_neg hc]
    exact h (by simpa [List.length_eq_zero] using hc)

theorem adjustedState_disj (files : List SummaryFile) :
    (adjustedState files).hasNewFiles = true ∨ (adjustedState files).hasDeletedFiles = true ∨
      (adjustedState files).hasModifiedFiles = true := by
  unfold adjustedState
  apply adjustChangeTypes_disj
  rw [adjustFileTypes_changeTypes, adjustFileTypes_hasNewFiles,
    adjustFileTypes_hasDeletedFiles, adjustFileTypes_hasModifiedFiles]
  exact foldl_disj files initAnalysisState (fun hh => absurd rfl hh)

theorem determineTypeScopeDesc_ne_fix (st : AnalysisState) (vf : List SummaryFile)
    (hd : st.hasNewFiles = true ∨ st.hasDeletedFiles = true ∨ st.hasModifiedFiles = true) :
    (determineTypeScopeDesc st vf).1 ≠ "fix" := by
  intro hfix
  unfold determineTypeScopeDesc at hfix
  split at hfix
  · simp at hfix
  split at hfix
  · simp at hfix
  split at hfix
  · simp at hfix
  split at hfix
  · split at hfix
    · simp at hfix
    split at hfix
    · simp at hfix
    split at hfix
    · simp at hfix
    split at hfix
    · simp at hfix
    split at hfix
    · simp at hfix
    · rename_i hts htest hfeat hrem hres hmod
      rcases st with ⟨ft, ct, b1, b2, b3⟩
      simp only at hfeat hrem hres hmod
      cases b1 <;> cases b2 <;> cases b3 <;> simp_all
  split at hfix
  · simp at hfix
  split at hfix
  · simp at hfix
  · simp at hfix

/-- Claim C10: for every non-empty change-file list, `analyzeChanges` never
returns type `fix` — the pure-modification branch always finds the modified
flag set, so `fix issue` is unreachable. -/
theorem C10_analyzeChanges_never_fix (files : List SummaryFile) (h : files ≠ []) :
    (analyzeChanges files).type ≠ "fix" := by
  have hlen : ¬files.length = 0 := by
    simpa [List.length_eq_zero] using h
  unfold analyzeChanges
  rw [if_neg hlen]
  exact determineTypeScopeDesc_ne_fix (adjustedState files) (validFilesOf files)
    (adjustedState_disj files)

/-- Witness for C10 at a mixed-modification TypeScript file. -/
theorem C10_witness :
    ([(⟨"a.ts", some (1, 1)⟩ : SummaryFile)] ≠ []) ∧
    (analyzeChanges [⟨"a.ts", some (1, 1)⟩]).type ≠ "fix" :=
  ⟨by decide, C10_analyzeChanges_never_fix [⟨"a.ts", some (1, 1)⟩] (by decide)⟩

end CommitGen
